import Mathlib

/-!
Shallow embedding of the driver `main.cxx` of the CudaDepthMapIntegration
repository.  Real numbers (`double` in the source) are modelled as `ℚ`;
the comparisons performed by the source (`==` against `0`) are exact, so
rationals model them faithfully.  VTK matrices (`vtkMatrix3x3`,
`vtkMatrix4x4`) are functions on `Fin`; both VTK classes are initialized
to the identity by `New()`.
-/

/-- A `vtkMatrix3x3`: 3 × 3 matrix of doubles. -/
abbrev Mat3 := Fin 3 → Fin 3 → ℚ

/-- A `vtkMatrix4x4`: 4 × 4 matrix of doubles. -/
abbrev Mat4 := Fin 4 → Fin 4 → ℚ

/-- Identity, the state of a `vtkMatrix3x3` after `New()`. -/
def mat3Identity : Mat3 := fun i j => if i = j then 1 else 0

/-- Identity, the state of a `vtkMatrix4x4` after `New()`. -/
def mat4Identity : Mat4 := fun i j => if i = j then 1 else 0

/-- `vtkMatrix4x4::SetElement(i, j, v)`. -/
def mset4 (m : Mat4) (i j : Fin 4) (v : ℚ) : Mat4 :=
  fun a b => if a = i ∧ b = j then v else m a b

/-- The content of a krtd file, as the stream extractions of
`ReadKrtdFile` see it: one list of successfully extracted doubles per
line.  `iss >> value` past the end of a line stores `0` (C++11 failure
semantics), modelled by the default of `tokAt`. -/
abbrev KrtdContent := List (List ℚ)

/-- The double extracted by the `j`-th `iss >> value` on a line
(`0` when extraction fails). -/
def tokAt (line : List ℚ) (j : ℕ) : ℚ := line.getD j 0

/-- The `i`-th `getline` of a file; a `getline` past the end of the file
leaves the string empty, i.e. a line with no extractable doubles. -/
def lineAt (content : KrtdContent) (i : ℕ) : List ℚ := content.getD i []

/-- `ReadKrtdFile` of `main.cxx` (lines 317-379).  The file argument is
`none` when the file cannot be opened (the only `return false` path).
On an open file the source reads, in order: lines 0-2 into the rows of
`K`; one `getline` discarding line 3; lines 4-6 into the 3 × 3 block of
`TR`; one `getline` discarding line 7; line 8 into column 3 of `TR`
(rows 0-2); finally it overwrites row 3 of `TR` with `0 0 0` and sets
`TR[3][3] = 1`. -/
def ReadKrtdFile (file : Option KrtdContent) : Option (Mat3 × Mat4) :=
  match file with
  | none => none
  | some content =>
    let matrixK : Mat3 := fun i j => tokAt (lineAt content i.val) j.val
    let trR : Mat4 := fun i j =>
      if i.val ≤ 2 ∧ j.val ≤ 2 then tokAt (lineAt content (4 + i.val)) j.val
      else mat4Identity i j
    let trRT : Mat4 := fun i j =>
      if i.val ≤ 2 ∧ j.val = 3 then tokAt (lineAt content 8) i.val
      else trR i j
    let trZeroRow : Mat4 := fun i j => if i.val = 3 then 0 else trRT i j
    let matrixTR : Mat4 := fun i j =>
      if i.val = 3 ∧ j.val = 3 then 1 else trZeroRow i j
    some (matrixK, matrixTR)

/-- One `std::getline(ss, item, delim)` loop step over the remaining
characters, with the characters of the current item accumulated in
reverse: reaching the end of the input emits the accumulated item;
reaching the delimiter as the last character emits the item and stops
(the next `getline` would extract nothing and fail); reaching the
delimiter elsewhere emits the item and continues. -/
def splitGo (delim : Char) : List Char → List Char → List String
  | [], acc => [String.mk acc.reverse]
  | [c], acc =>
      if c = delim then [String.mk acc.reverse]
      else [String.mk (c :: acc).reverse]
  | c :: cs, acc =>
      if c = delim then String.mk acc.reverse :: splitGo delim cs []
      else splitGo delim cs (c :: acc)

/-- `SplitString` of `main.cxx` (lines 411-421): repeated
`std::getline(ss, item, delim)`.  On the empty string the first
`getline` extracts nothing and fails, giving `[]`. -/
def SplitString (s : String) (delim : Char) : List String :=
  match s.data with
  | [] => []
  | l => splitGo delim l []

/-- `CreateGridMatrixFromInput` of `main.cxx` (lines 383-407): a
`vtkMatrix4x4` is created (identity), then the nine `SetElement` calls
write the components of the three grid vectors into the upper 3 × 3
block, row 0 from `gridVecX`, row 1 from `gridVecY`, row 2 from
`gridVecZ`.  The vectors are the raw `--gridVec*` argument lists; an
out-of-bounds component read is modelled by `getD _ 0`. -/
def CreateGridMatrixFromInput (vx vy vz : List ℚ) : Mat4 :=
  let m0 := mat4Identity
  let m1 := mset4 m0 0 0 (vx.getD 0 0)
  let m2 := mset4 m1 0 1 (vx.getD 1 0)
  let m3 := mset4 m2 0 2 (vx.getD 2 0)
  let m4 := mset4 m3 1 0 (vy.getD 0 0)
  let m5 := mset4 m4 1 1 (vy.getD 1 0)
  let m6 := mset4 m5 1 2 (vy.getD 2 0)
  let m7 := mset4 m6 2 0 (vz.getD 0 0)
  let m8 := mset4 m7 2 1 (vz.getD 1 0)
  mset4 m8 2 2 (vz.getD 2 0)

/-- `vtkMath::Dot` on the three-component arrays built by
`AreVectorsOrthogonal` from components 0, 1, 2 of the argument lists. -/
def vecDot3 (u v : List ℚ) : ℚ :=
  u.getD 0 0 * v.getD 0 0 + u.getD 1 0 * v.getD 1 0 + u.getD 2 0 * v.getD 2 0

/-- `AreVectorsOrthogonal` of `main.cxx` (lines 215-228): the three
pairwise dot products of the grid vectors must all be exactly `0`. -/
def AreVectorsOrthogonal (vx vy vz : List ℚ) : Bool :=
  let xy := vecDot3 vx vy
  let yz := vecDot3 vy vz
  let zx := vecDot3 vz vx
  if xy = 0 ∧ yz = 0 ∧ zx = 0 then true else false

/-- The command-line state of `main.cxx` after `arg.Parse()` (lines
166-195): the global option variables, together with the outcome of the
parse itself (`parseOk` is the value of `arg.Parse()`, `help` the
`--help` flag).  Defaults as in lines 55-68. -/
structure Args where
  gridDims : List ℤ := []
  gridSpacing : List ℚ := []
  gridOrigin : List ℚ := []
  gridVecX : List ℚ := []
  gridVecY : List ℚ := []
  gridVecZ : List ℚ := []
  outputGridFilename : String := ""
  pathFolder : String := ""
  depthMapContainer : String := "vtiList.txt"
  krtContainer : String := "kList.txt"
  rayPotentialThick : ℚ := 2
  rayPotentialRho : ℚ := 3
  noCuda : Bool := false
  verbose : Bool := false
  parseOk : Bool := true
  help : Bool := false

/-- `ReadArguments` of `main.cxx` (lines 166-211): fails when the parse
failed or `--help` was given, when any of the three filename arguments
is empty, or when the grid vectors are not pairwise orthogonal. -/
def ReadArguments (a : Args) : Bool :=
  if a.parseOk = false ∨ a.help = true then false
  else if a.outputGridFilename = "" ∨ a.depthMapContainer = "" ∨ a.krtContainer = "" then
    false
  else if AreVectorsOrthogonal a.gridVecX a.gridVecY a.gridVecZ = false then false
  else true

/-- The payload of a depth-map image (`vtkImageData`); its structure is
irrelevant to the driver, which only passes it through. -/
abbrev DepthMap := List (List ℚ)

/-- The `ReconstructionData` class as used by `main.cxx` (its own
translation unit is not part of `src/`): a freshly constructed object
has no depth map and no matrices; `SetDepthMap`, `SetMatrixK` and
`SetMatrixTR` fill the three fields. -/
structure ReconstructionData where
  depthMap : Option DepthMap := none
  matrixK : Option Mat3 := none
  matrixTR : Option Mat4 := none

/-- Everything `main` hands to the `vtkCudaReconstructionFilter`
(lines 122-132): the image grid geometry, the CUDA switch, the two
ray-potential parameters, the data list and the grid matrix. -/
structure EngineParams where
  gridDims : List ℤ
  gridSpacing : List ℚ
  gridOrigin : List ℚ
  useCuda : Bool
  rayPotentialRho : ℚ
  rayPotentialThick : ℚ
  dataList : List ReconstructionData
  gridMatrix : Mat4

/-- The scalar payload of the fused output grid; opaque to the driver. -/
abbrev ResultGridData := List ℚ

/-- The error taxonomy of the fusion engine, from the spec (§7). -/
inductive EngineError where
  | invalidParameter
  | invalidGeometry
  | noEvidence
  | invalidView
deriving DecidableEq

/-- The external environment of one run: the text files that can be
opened (`none` = cannot open), the krtd files, the depth-map images the
XML reader produces (a `vtkXMLImageDataReader` always yields an output
object, whatever the file), and the fusion result and execution time of
the engine on given parameters. -/
structure World where
  textFiles : String → Option (List String)
  krtdFiles : String → Option KrtdContent
  depthMaps : String → DepthMap
  fusion : EngineParams → ResultGridData
  executionTime : EngineParams → ℚ

/-- Is the dot product of rows `i` and `j` (first three columns) of the
grid matrix zero? -/
def matRowDotZero (m : Mat4) (i j : Fin 4) : Prop :=
  m i 0 * m j 0 + m i 1 * m j 1 + m i 2 * m j 2 = 0

instance (m : Mat4) (i j : Fin 4) : Decidable (matRowDotZero m i j) := by
  unfold matRowDotZero; infer_instance

/-- Does a `ReconstructionData` have its depth map and both matrices
set? -/
def viewComplete (d : ReconstructionData) : Bool :=
  d.depthMap.isSome && d.matrixK.isSome && d.matrixTR.isSome

/-- Modelled from the spec: the fusion engine (`vtkCudaReconstructionFilter`
and its CUDA kernel are not under `src/`; §4.3, §6 and §7 of the spec
describe it).  It fails fast, before any voxel work: `InvalidParameter`
when `thickness` or `rho` is non-positive, `InvalidGeometry` when the
basis rows of the grid matrix are not pairwise orthogonal, `NoEvidence`
when the view collection is empty, `InvalidView` when a view misses its
depth map or either matrix; otherwise the fusion itself runs. -/
def engineRun (w : World) (p : EngineParams) : Except EngineError ResultGridData :=
  if p.rayPotentialThick ≤ 0 ∨ p.rayPotentialRho ≤ 0 then .error .invalidParameter
  else if ¬ (matRowDotZero p.gridMatrix 0 1 ∧ matRowDotZero p.gridMatrix 1 2 ∧
      matRowDotZero p.gridMatrix 2 0) then .error .invalidGeometry
  else if p.dataList.length = 0 then .error .noEvidence
  else if ¬ p.dataList.all viewComplete then .error .invalidView
  else .ok (w.fusion p)

/-- The loop of `CreateReconstructionData` (lines 253-303): for each
line of the depth-map container, split on `/`; an empty line is skipped
before the matrix container is read (so its line is not consumed); a
non-empty line consumes one line of the matrix container (an exhausted
matrix container yields the empty string), reads the depth map, and
reads the krtd file; if the krtd file cannot be read the entry is
skipped, otherwise a `ReconstructionData` with all three fields set is
appended. -/
def buildDataList (w : World) (pathFolder : String) :
    List String → List String → List ReconstructionData
  | [], _ => []
  | dm :: dms, krts =>
    let elems := SplitString dm '/'
    if elems.length = 0 then buildDataList w pathFolder dms krts
    else
      let depthMapPath := pathFolder ++ "\\" ++ elems.getD (elems.length - 1) ""
      let depthMap := w.depthMaps depthMapPath
      let krtStep : String × List String :=
        match krts with
        | [] => ("", [])
        | k :: ks => (k, ks)
      let melems := SplitString krtStep.1 '/'
      let matrixPath := pathFolder ++ "\\" ++ melems.getD (melems.length - 1) ""
      match ReadKrtdFile (w.krtdFiles matrixPath) with
      | none => buildDataList w pathFolder dms krtStep.2
      | some kTR =>
        { depthMap := some depthMap, matrixK := some kTR.1, matrixTR := some kTR.2 } ::
          buildDataList w pathFolder dms krtStep.2

/-- The diagnostic messages `ShowInformation` can print, identified by
their call sites; the payloads are the data interpolated into the
message text. -/
inductive Msg where
  | start
  | readFiles
  | loaded (n : ℕ)
  | gridMatrixInfo (vx vy vz : List ℚ)
  | launchReconstruction
  | executionTime (t : ℚ)
  | applyMatrix
  | saveOutput
  | endRun
deriving DecidableEq

/-- `CreateReconstructionData` of `main.cxx` (lines 234-313): opens the
two container files (failing if either cannot be opened), runs the
loading loop, and fails if the resulting list is empty.  Returned with
it are the messages its `ShowInformation` calls would print; the
`verbose` gate is applied where the messages are surfaced in `mainRun`
(equivalent, since `verbose` is constant over a run). -/
def CreateReconstructionData (w : World) (pathFolder depthMapContainer krtContainer : String) :
    Option (List ReconstructionData) × List Msg :=
  let dmapGlobalFile := pathFolder ++ "\\" ++ depthMapContainer
  let krtGlobalFile := pathFolder ++ "\\" ++ krtContainer
  match w.textFiles dmapGlobalFile, w.textFiles krtGlobalFile with
  | some dmLines, some krtLines =>
    let l := buildDataList w pathFolder dmLines krtLines
    if l.length = 0 then (none, [Msg.readFiles])
    else (some l, [Msg.readFiles, Msg.loaded l.length])
  | _, _ => (none, [Msg.readFiles])

/-- The observable outcome of one run of `main`: the exit code, the
values constructed and handed to the reconstruction filter and the
writer (`none` when the run never reaches that point), whether the
writer was invoked, and the console diagnostics. -/
structure MainOutcome where
  exitCode : ℕ
  gridMatrix : Option Mat4
  dataList : Option (List ReconstructionData)
  engineParams : Option EngineParams
  engineResult : Option (Except EngineError ResultGridData)
  outputFile : Option String
  writerInvoked : Bool
  console : List Msg

/-- `main` of `main.cxx` (lines 93-162): read the arguments (exit 1 on
failure), build the data list (exit 1 on failure), build the grid
matrix, run the reconstruction filter on the assembled parameters, and
write the transformed output.  The engine invocation is the
spec-modelled `engineRun`; `EXIT_FAILURE` is `1`, `EXIT_SUCCESS` `0`. -/
def mainRun (w : World) (a : Args) : MainOutcome :=
  if ReadArguments a = false then
    { exitCode := 1, gridMatrix := none, dataList := none, engineParams := none,
      engineResult := none, outputFile := none, writerInvoked := false, console := [] }
  else
    match CreateReconstructionData w a.pathFolder a.depthMapContainer a.krtContainer with
    | (none, msgs) =>
      { exitCode := 1, gridMatrix := none, dataList := none, engineParams := none,
        engineResult := none, outputFile := none, writerInvoked := false,
        console := if a.verbose then Msg.start :: msgs else [] }
    | (some dataL, msgs) =>
      let gridMatrix := CreateGridMatrixFromInput a.gridVecX a.gridVecY a.gridVecZ
      let p : EngineParams :=
        { gridDims := a.gridDims, gridSpacing := a.gridSpacing, gridOrigin := a.gridOrigin,
          useCuda := !a.noCuda, rayPotentialRho := a.rayPotentialRho,
          rayPotentialThick := a.rayPotentialThick, dataList := dataL,
          gridMatrix := gridMatrix }
      let result := engineRun w p
      let t := w.executionTime p
      { exitCode := 0, gridMatrix := some gridMatrix, dataList := some dataL,
        engineParams := some p, engineResult := some result,
        outputFile := some a.outputGridFilename, writerInvoked := true,
        console := if a.verbose then
          Msg.start :: msgs ++
            [Msg.gridMatrixInfo a.gridVecX a.gridVecY a.gridVecZ,
             Msg.launchReconstruction, Msg.executionTime t,
             Msg.applyMatrix, Msg.saveOutput, Msg.endRun]
          else [] }

/-- A krtd file with identity `K`, identity `R` and translation
`(2, 3, 4)`, in the layout `ReadKrtdFile` expects. -/
def krtdSample : KrtdContent :=
  [[1, 0, 0], [0, 1, 0], [0, 0, 1], [], [1, 0, 0], [0, 1, 0], [0, 0, 1], [], [2, 3, 4]]

/-- The matrices `ReadKrtdFile` extracts from `krtdSample`. -/
def krtdSamplePair : Mat3 × Mat4 :=
  (ReadKrtdFile (some krtdSample)).getD (mat3Identity, mat4Identity)

/-- Arguments of a well-formed run: orthogonal axis vectors and a
non-empty output filename. -/
def argsOrtho : Args :=
  { gridDims := [2, 2, 2], gridSpacing := [1, 1, 1], gridOrigin := [0, 0, 0],
    gridVecX := [1, 0, 0], gridVecY := [0, 1, 0], gridVecZ := [0, 0, 1],
    outputGridFilename := "out.vts", pathFolder := "data" }

/-- Arguments with the non-orthogonal basis of the claim:
`X = (1,0,0)`, `Y = (1,1,0)`. -/
def argsNonOrtho : Args :=
  { argsOrtho with gridVecY := [1, 1, 0] }

/-- Arguments with an orthogonal basis but an empty
`--outputGridFilename`. -/
def argsCex : Args :=
  { argsOrtho with outputGridFilename := "" }

/-- Arguments that pass every check of `ReadArguments` although each
grid vector has fewer than three components. -/
def argsShort : Args :=
  { argsOrtho with gridVecX := [], gridVecY := [], gridVecZ := [] }

/-- A well-formed run except that `--rayThick 0` was supplied. -/
def argsThickZero : Args := { argsOrtho with rayPotentialThick := 0 }

/-- A run environment whose data folder `data` holds one depth map
`dm0.vti` and one calibration file `k0.krtd` (the latter readable as
`krtdSample`), listed in the two default container files. -/
def wTest : World :=
  { textFiles := fun s =>
      if s = "data\\vtiList.txt" then some ["dm0.vti"]
      else if s = "data\\kList.txt" then some ["k0.krtd"]
      else none,
    krtdFiles := fun s => if s = "data\\k0.krtd" then some krtdSample else none,
    depthMaps := fun _ => [[5, 5], [5, 5]],
    fusion := fun _ => [0],
    executionTime := fun _ => 0 }

/-- A run environment whose two container files open but list nothing,
so that zero views are loaded. -/
def wEmpty : World :=
  { textFiles := fun s =>
      if s = "data\\vtiList.txt" then some []
      else if s = "data\\kList.txt" then some []
      else none,
    krtdFiles := fun _ => none,
    depthMaps := fun _ => [],
    fusion := fun _ => [0],
    executionTime := fun _ => 0 }

/-- The component indices `AreVectorsOrthogonal` (lines 217-219) and
`CreateGridMatrixFromInput` (lines 389-397) read from each of the three
grid-vector argument lists, unconditionally. -/
def gridVecAccessedIndices : List ℕ := [0, 1, 2]

/-- Are all unconditional component reads inside the bounds of the
supplied argument list? -/
def accessesInBounds (v : List ℚ) : Prop :=
  ∀ i ∈ gridVecAccessedIndices, i < v.length

/-- Helper: when argument reading fails or data construction yields no
list, `main` exits with `EXIT_FAILURE` having touched neither the
reconstruction filter nor the writer. -/
theorem mainRun_fail_aux (w : World) (a : Args)
    (h : ReadArguments a = false ∨
      (CreateReconstructionData w a.pathFolder a.depthMapContainer a.krtContainer).1 = none) :
    (mainRun w a).exitCode = 1 ∧ (mainRun w a).engineParams = none ∧
    (mainRun w a).engineResult = none ∧ (mainRun w a).writerInvoked = false := by
  unfold mainRun
  cases hR : ReadArguments a with
  | false => simp
  | true =>
    rcases h with h | h
    · rw [hR] at h; cases h
    · rcases hC : CreateReconstructionData w a.pathFolder a.depthMapContainer a.krtContainer
        with ⟨o, msgs⟩
      rw [hC] at h
      simp only at h
      subst h
      simp [hC]

/-- C6: every pose matrix `TR` produced by a successful call of
`ReadKrtdFile` has bottom row exactly `[0, 0, 0, 1]`, whatever the file
content: the final loop of `ReadKrtdFile` (lines 372-376) overwrites
row 3 unconditionally. -/
theorem readKrtdFile_bottom_row (f : Option KrtdContent) (K : Mat3) (TR : Mat4)
    (h : ReadKrtdFile f = some (K, TR)) :
    TR 3 0 = 0 ∧ TR 3 1 = 0 ∧ TR 3 2 = 0 ∧ TR 3 3 = 1 := by
  cases f with
  | none => simp [ReadKrtdFile] at h
  | some content =>
    simp only [ReadKrtdFile, Option.some.injEq, Prod.mk.injEq] at h
    obtain ⟨hK, hTR⟩ := h
    subst hTR
    exact ⟨rfl, rfl, rfl, rfl⟩

/-- Witness for C6 on the concrete file `krtdSample`. -/
theorem readKrtdFile_bottom_row_witness :
    krtdSamplePair.2 3 0 = 0 ∧ krtdSamplePair.2 3 1 = 0 ∧
    krtdSamplePair.2 3 2 = 0 ∧ krtdSamplePair.2 3 3 = 1 :=
  readKrtdFile_bottom_row (some krtdSample) krtdSamplePair.1 krtdSamplePair.2 rfl

/-- C8: `ReadKrtdFile` fails exactly when the file cannot be opened;
every openable file is accepted whatever its content (there is no other
`return false` in lines 317-379). -/
theorem readKrtdFile_isSome_iff_open (f : Option KrtdContent) :
    (ReadKrtdFile f).isSome = f.isSome := by
  cases f <;> rfl

/-- C7: `CreateGridMatrixFromInput` writes the components of
`gridVecX`, `gridVecY`, `gridVecZ` into rows 0, 1, 2 of the upper 3 × 3
block, and leaves the fourth row and fourth column as in the identity
matrix. -/
theorem createGridMatrix_entries (vx vy vz : List ℚ) :
    (CreateGridMatrixFromInput vx vy vz 0 0 = vx.getD 0 0 ∧
     CreateGridMatrixFromInput vx vy vz 0 1 = vx.getD 1 0 ∧
     CreateGridMatrixFromInput vx vy vz 0 2 = vx.getD 2 0) ∧
    (CreateGridMatrixFromInput vx vy vz 1 0 = vy.getD 0 0 ∧
     CreateGridMatrixFromInput vx vy vz 1 1 = vy.getD 1 0 ∧
     CreateGridMatrixFromInput vx vy vz 1 2 = vy.getD 2 0) ∧
    (CreateGridMatrixFromInput vx vy vz 2 0 = vz.getD 0 0 ∧
     CreateGridMatrixFromInput vx vy vz 2 1 = vz.getD 1 0 ∧
     CreateGridMatrixFromInput vx vy vz 2 2 = vz.getD 2 0) ∧
    (CreateGridMatrixFromInput vx vy vz 0 3 = 0 ∧
     CreateGridMatrixFromInput vx vy vz 1 3 = 0 ∧
     CreateGridMatrixFromInput vx vy vz 2 3 = 0) ∧
    (CreateGridMatrixFromInput vx vy vz 3 0 = 0 ∧
     CreateGridMatrixFromInput vx vy vz 3 1 = 0 ∧
     CreateGridMatrixFromInput vx vy vz 3 2 = 0 ∧
     CreateGridMatrixFromInput vx vy vz 3 3 = 1) :=
  ⟨⟨rfl, rfl, rfl⟩, ⟨rfl, rfl, rfl⟩, ⟨rfl, rfl, rfl⟩,
   ⟨rfl, rfl, rfl⟩, ⟨rfl, rfl, rfl, rfl⟩⟩

/-- C1 counterexample: the claimed equivalence "the run proceeds past
argument validation iff the three pairwise dot products are zero" fails
on `argsCex`, a run whose basis is perfectly orthogonal but whose
`--outputGridFilename` is empty: `ReadArguments` rejects it anyway. -/
theorem readArguments_ortho_not_sufficient :
    ¬ (ReadArguments argsCex = true ↔
        AreVectorsOrthogonal argsCex.gridVecX argsCex.gridVecY argsCex.gridVecZ = true) := by
  have h1 : ReadArguments argsCex = false := rfl
  have h2 : AreVectorsOrthogonal argsCex.gridVecX argsCex.gridVecY argsCex.gridVecZ = true := by
    simp [argsCex, argsOrtho, AreVectorsOrthogonal, vecDot3]
  intro h
  rw [h1, h2] at h
  simp at h

/-- C1 amended: provided command-line parsing succeeded, `--help` was
not requested and the three filename arguments are non-empty, the run
proceeds past argument validation iff the three pairwise dot products
of the grid vectors are exactly zero; and with `X = (1,0,0)`,
`Y = (1,1,0)` the run fails before any voxel work: exit code 1, the
reconstruction filter never invoked, no output written. -/
theorem readArguments_ortho_iff (a : Args)
    (hp : a.parseOk = true) (hh : a.help = false)
    (h1 : a.outputGridFilename ≠ "") (h2 : a.depthMapContainer ≠ "")
    (h3 : a.krtContainer ≠ "") :
    (ReadArguments a = true ↔
      (vecDot3 a.gridVecX a.gridVecY = 0 ∧ vecDot3 a.gridVecY a.gridVecZ = 0 ∧
       vecDot3 a.gridVecZ a.gridVecX = 0)) ∧
    (∀ (w : World) (b : Args), b.gridVecX = [1, 0, 0] → b.gridVecY = [1, 1, 0] →
      (mainRun w b).exitCode = 1 ∧ (mainRun w b).engineResult = none ∧
      (mainRun w b).writerInvoked = false) := by
  constructor
  · simp only [ReadArguments, AreVectorsOrthogonal, hp, hh, h1, h2, h3]
    simp
  · intro w b hX hY
    have hA : AreVectorsOrthogonal b.gridVecX b.gridVecY b.gridVecZ = false := by
      rw [hX, hY]
      norm_num [AreVectorsOrthogonal, vecDot3]
    have hR : ReadArguments b = false := by
      simp [ReadArguments, hA]
    simp [mainRun, hR]

/-- Witness for C1 amended: at `argsOrtho` the equivalence holds with
both sides true; at `argsNonOrtho` the run fails with no output. -/
theorem readArguments_ortho_iff_witness :
    (ReadArguments argsOrtho = true ↔
      (vecDot3 argsOrtho.gridVecX argsOrtho.gridVecY = 0 ∧
       vecDot3 argsOrtho.gridVecY argsOrtho.gridVecZ = 0 ∧
       vecDot3 argsOrtho.gridVecZ argsOrtho.gridVecX = 0)) ∧
    ((mainRun wTest argsNonOrtho).exitCode = 1 ∧
     (mainRun wTest argsNonOrtho).engineResult = none ∧
     (mainRun wTest argsNonOrtho).writerInvoked = false) := by
  have h := readArguments_ortho_iff argsOrtho rfl rfl
    (by decide) (by decide) (by decide)
  exact ⟨h.1, h.2 wTest argsNonOrtho (by simp [argsNonOrtho, argsOrtho])
    (by simp [argsNonOrtho, argsOrtho])⟩

/-- C9: the unconditional reads of components 0, 1, 2 are in bounds
exactly when the vector argument carries at least three values, and
`ReadArguments` enforces no such length check: a run whose three grid
vectors are all empty passes every validation step. -/
theorem gridVec_access_bounds :
    (∀ v : List ℚ, accessesInBounds v ↔ 3 ≤ v.length) ∧
    (∃ a : Args, ReadArguments a = true ∧ a.gridVecX.length < 3 ∧
      a.gridVecY.length < 3 ∧ a.gridVecZ.length < 3) := by
  constructor
  · intro v
    constructor
    · intro h
      have := h 2 (by simp [gridVecAccessedIndices])
      omega
    · intro h i hi
      simp [gridVecAccessedIndices] at hi
      omega
  · refine ⟨argsShort, ?_, by simp [argsShort, argsOrtho], by simp [argsShort, argsOrtho],
      by simp [argsShort, argsOrtho]⟩
    simp [ReadArguments, argsShort, argsOrtho, AreVectorsOrthogonal, vecDot3]
    exact ⟨by decide, by decide⟩

/-- C5: if any validation step fails (argument parsing, the
orthogonality check — both inside `ReadArguments` — or the construction
of the reconstruction data), `main` returns `EXIT_FAILURE` without
invoking the reconstruction filter or the output-grid writer. -/
theorem validation_failure_no_output (w : World) (a : Args)
    (h : ReadArguments a = false ∨
      (CreateReconstructionData w a.pathFolder a.depthMapContainer a.krtContainer).1 = none) :
    (mainRun w a).exitCode = 1 ∧ (mainRun w a).engineParams = none ∧
    (mainRun w a).engineResult = none ∧ (mainRun w a).writerInvoked = false :=
  mainRun_fail_aux w a h

/-- Witness for C5 at the concrete failing run `argsCex` (empty output
filename, so `ReadArguments` fails). -/
theorem validation_failure_no_output_witness :
    (mainRun wTest argsCex).exitCode = 1 ∧ (mainRun wTest argsCex).engineParams = none ∧
    (mainRun wTest argsCex).engineResult = none ∧ (mainRun wTest argsCex).writerInvoked = false :=
  validation_failure_no_output wTest argsCex (Or.inl rfl)

/-- C3: when both container files open but the loading loop produces an
empty view list, the run fails before the reconstruction filter is
invoked and no result grid is produced. -/
theorem empty_view_list_fails (w : World) (a : Args) (dmLines krtLines : List String)
    (hdm : w.textFiles (a.pathFolder ++ "\\" ++ a.depthMapContainer) = some dmLines)
    (hkrt : w.textFiles (a.pathFolder ++ "\\" ++ a.krtContainer) = some krtLines)
    (hempty : buildDataList w a.pathFolder dmLines krtLines = []) :
    (mainRun w a).exitCode = 1 ∧ (mainRun w a).engineParams = none ∧
    (mainRun w a).engineResult = none ∧ (mainRun w a).writerInvoked = false := by
  apply mainRun_fail_aux
  right
  simp [CreateReconstructionData, hdm, hkrt, hempty]

/-- Witness for C3: `wEmpty` opens both containers and loads zero
views; the run on `argsOrtho` fails with no filter and no writer. -/
theorem empty_view_list_fails_witness :
    (mainRun wEmpty argsOrtho).exitCode = 1 ∧ (mainRun wEmpty argsOrtho).engineParams = none ∧
    (mainRun wEmpty argsOrtho).engineResult = none ∧
    (mainRun wEmpty argsOrtho).writerInvoked = false :=
  empty_view_list_fails wEmpty argsOrtho [] [] rfl rfl rfl

/-- C4: every `ReconstructionData` the loading loop appends has its
depth map, matrix `K` and matrix `TR` all set: an entry whose krtd file
cannot be read is skipped before construction. -/
theorem buildDataList_views_complete (w : World) (pf : String)
    (dms krts : List String) :
    (buildDataList w pf dms krts).all viewComplete = true := by
  induction dms generalizing krts with
  | nil => rfl
  | cons dm dms ih =>
    simp only [buildDataList]
    split
    · exact ih krts
    · split
      · exact ih _
      · simp only [List.all_cons, Bool.and_eq_true]
        exact ⟨rfl, ih _⟩

/-- C2: a run supplied with a non-positive ray-potential thickness or
rho never performs fusion: either the run dies in an earlier validation
step (the driver itself performs no positivity check and passes the
values straight to the filter), or the engine — modelled from the spec,
its sources being outside `src/` — rejects the parameters with
`InvalidParameter` before any ray-potential evaluation. -/
theorem nonpositive_ray_params_never_fused (w : World) (a : Args)
    (h : a.rayPotentialThick ≤ 0 ∨ a.rayPotentialRho ≤ 0) :
    (mainRun w a).engineResult = none ∨
    (mainRun w a).engineResult =
      some (Except.error EngineError.invalidParameter) := by
  unfold mainRun
  cases hR : ReadArguments a with
  | false => left; rfl
  | true =>
    rw [if_neg (by simp)]
    rcases hC : CreateReconstructionData w a.pathFolder a.depthMapContainer a.krtContainer
      with ⟨o, msgs⟩
    cases o with
    | none => left; rfl
    | some dataL =>
      right
      have hE : engineRun w
          { gridDims := a.gridDims, gridSpacing := a.gridSpacing,
            gridOrigin := a.gridOrigin, useCuda := !a.noCuda,
            rayPotentialRho := a.rayPotentialRho,
            rayPotentialThick := a.rayPotentialThick, dataList := dataL,
            gridMatrix := CreateGridMatrixFromInput a.gridVecX a.gridVecY a.gridVecZ } =
          Except.error EngineError.invalidParameter := by
        unfold engineRun
        exact if_pos h
      exact congrArg some hE

/-- Witness for C2: on `wTest` the run with `--rayThick 0` reaches the
engine and is rejected with `InvalidParameter`. -/
theorem nonpositive_ray_params_never_fused_witness :
    (mainRun wTest argsThickZero).engineResult = none ∨
    (mainRun wTest argsThickZero).engineResult =
      some (Except.error EngineError.invalidParameter) :=
  nonpositive_ray_params_never_fused wTest argsThickZero
    (Or.inl (by norm_num [argsThickZero, argsOrtho]))

/-- C10: two runs that differ only in the `--verbose` flag construct
the same grid matrix, load the same data list, hand the same parameters
to the reconstruction filter, obtain the same engine result, write the
same output file and exit with the same code — the flag only gates the
console diagnostics of `ShowInformation`. -/
theorem verbose_only_affects_console (w : World) (a : Args) (v : Bool) :
    (mainRun w { a with verbose := v }).exitCode = (mainRun w a).exitCode ∧
    (mainRun w { a with verbose := v }).gridMatrix = (mainRun w a).gridMatrix ∧
    (mainRun w { a with verbose := v }).dataList = (mainRun w a).dataList ∧
    (mainRun w { a with verbose := v }).engineParams = (mainRun w a).engineParams ∧
    (mainRun w { a with verbose := v }).engineResult = (mainRun w a).engineResult ∧
    (mainRun w { a with verbose := v }).outputFile = (mainRun w a).outputFile ∧
    (mainRun w { a with verbose := v }).writerInvoked = (mainRun w a).writerInvoked := by
  unfold mainRun
  have hR : ReadArguments { a with verbose := v } = ReadArguments a := rfl
  rw [hR]
  cases hRA : ReadArguments a with
  | false => simp
  | true =>
    have hC : CreateReconstructionData w ({ a with verbose := v }).pathFolder
        ({ a with verbose := v }).depthMapContainer
        ({ a with verbose := v }).krtContainer =
        CreateReconstructionData w a.pathFolder a.depthMapContainer a.krtContainer := rfl
    rw [hC]
    rcases CreateReconstructionData w a.pathFolder a.depthMapContainer a.krtContainer
      with ⟨o, msgs⟩
    cases o <;> simp
